import Mathlib

/-!
Shallow embedding of the DXF-Import repository's fidelity-resolution and
tessellation core (src/importer.py `get_hifi_geometry`, src/geometry_to_line.py
`lines_to_points`, `arc_to_lines`, `ellipse_to_arcs`, `convert_to`).

Modelling conventions:
* Python floats are modelled as rationals (ℚ); the transcendental library
  functions (cos, sin, sqrt, atan2, pi) are abstracted as parameters in a
  `MathFuncs` bundle, so every theorem quantifying over them holds in
  particular for the real functions.
* An uncaught Python exception is modelled as `Except.error` carrying the
  exception's kind (`PyErr`); a normal return is `Except.ok`.
* Python's `num_segments` argument (declared `float`, but only ever usable as
  an integer because it feeds `range`) is modelled as ℤ; passing a value with
  nonzero fractional part would raise `TypeError` at the `range` call, which
  is the same failure the derived-from-`segment_length` path hits and which we
  model as `PyErr.typeError`.
* Mutable locals that survive loop iterations in Python (`num_segments`,
  `point_index`, `line_index`, `arc_index`, and the fitted `cx`/`cy` that
  persist across `except ZeroDivisionError` handlers) are threaded as explicit
  state through the recursion, mirroring the source's mutation order.
-/

/-- Python exception kinds that the embedded code can raise uncaught. -/
inductive PyErr where
  | invalidUnits
  | zeroDivision
  | typeError
  | nameError
  | valueError
deriving DecidableEq, Repr

/-- geometry_to_line.py lines 33-58 (identical table in importer.py). -/
def UNIT_TABLE : List String :=
  ["in", "ft", "mi", "mm", "cm", "m", "km", "ui", "mil", "yd", "a", "nm",
   "um", "dm", "dam", "hm", "gm", "au", "ly", "pc", "usft", "usin", "usyd",
   "usmi"]

/-- geometry_to_line.py lines 5-31 (identical table in importer.py). -/
def CONVERSION_FACTORS : List ℚ :=
  [1.0,
   3.9370079 * 10 ^ 5,
   3.2808399 * 10 ^ 6,
   6.2137119 * 10 ^ 10,
   1.0 * 10 ^ 3,
   1.0 * 10 ^ 4,
   1.0 * 10 ^ 6,
   1.0 * 10 ^ 9,
   39.37007874015748,
   39.37007874015748 * 10 ^ 3,
   1.093613 * 10 ^ 6,
   1.0 * 10 ^ 4,
   1.0 * 10 ^ 3,
   1.0,
   1.0 * 10 ^ 5,
   1.0 * 10 ^ 7,
   1.0 * 10 ^ 8,
   1.0 * 10 ^ 15,
   6.6845871226706 * 10 ^ 18,
   1.0570008340246 * 10 ^ 22,
   3.2407792700054 * 10 ^ 23,
   3.2808399 * 10 ^ 6,
   3.9370079 * 10 ^ 5,
   1.093613 * 10 ^ 6,
   6.2137119 * 10 ^ 10]

/-- geometry_to_line.py line 61: default conversion parameter. -/
def NUM_SEGMENTS : ℤ := 10

/-- View of `Except` as a sum, used to derive decidable equality. -/
def exceptToSum {ε α : Type} : Except ε α → ε ⊕ α
  | .error e => .inl e
  | .ok a => .inr a

instance {ε α : Type} [DecidableEq ε] [DecidableEq α] : DecidableEq (Except ε α) :=
  fun a b =>
    decidable_of_iff (exceptToSum a = exceptToSum b)
      (by cases a <;> cases b <;> simp [exceptToSum])

/-- A geometry entry `('KIND:#', [tuple, ...])`; Python tuples of floats are
modelled as lists of rationals. -/
abbrev TGeometryItem : Type := String × List (List ℚ)

/-- An ordered batch of geometry entries. -/
abbrev TGeometryList : Type := List TGeometryItem

/-- The conversion factor looked up by `CONVERSION_FACTORS[UNIT_TABLE.index(units)+1]`
for a `units` string known to be in `UNIT_TABLE`. -/
def conversion_factor_of (units : String) : ℚ :=
  CONVERSION_FACTORS.getD (UNIT_TABLE.indexOf units + 1) 1

/-- importer.py line 105: the rank list local to `get_hifi_geometry`. -/
def geometries : List String :=
  ["POINT", "LINE", "ARC", "ELLIPSE", "SPLINE", "LWPOLYLINE"]

/-- importer.py lines 131-134: `for index in range(geometries.index(geometry)-1,-1,-1)`,
returning the first entry of `geometries` below index `i` that is in
`allowedtypes`. `scan_below allowed i` inspects indices `i-1, ..., 0`. -/
def scan_below (allowedtypes : List String) : ℕ → Option String
  | 0 => none
  | j + 1 =>
    if geometries.getD j "" ∈ allowedtypes then some (geometries.getD j "")
    else scan_below allowedtypes j

/-- importer.py lines 79-137 `get_hifi_geometry`. The Python function returns a
string or the empty list `[]`; we model the empty-list result as `none`. A
`geometry` string absent from the rank list makes `geometries.index` raise
`ValueError`, modelled as `Except.error .valueError`. -/
def get_hifi_geometry (geometry : String) (allowedtypes : List String) :
    Except PyErr (Option String) :=
  if geometry = "SPLINE" ∧ "LINE" ∈ allowedtypes then .ok (some "LINE")
  else if geometry = "SPLINE" ∧ "POINT" ∈ allowedtypes then .ok (some "POINT")
  else if geometry = "LWPOLYLINE" ∧ "ARC" ∈ allowedtypes ∧ "LINE" ∈ allowedtypes then
    .ok (some "ARC")
  else if geometry = "LWPOLYLINE" ∧ "ARC" ∉ allowedtypes ∧ "LINE" ∈ allowedtypes then
    .ok (some "LINE")
  else if geometry = "LWPOLYLINE" ∧ "POINT" ∈ allowedtypes then .ok (some "POINT")
  else
    match geometries.indexOf? geometry with
    | none => .error .valueError
    | some i => .ok (scan_below allowedtypes i)

/-- The transcendental functions of Python's `math` module, abstracted so the
embedding stays executable; `cosd θ` models `math.cos(math.radians(θ))`,
`sind θ` models `math.sin(math.radians(θ))`, `atan2d y x` models
`math.degrees(math.atan2(y, x))`, and `pi` models `math.pi`. -/
structure MathFuncs where
  cosd : ℚ → ℚ
  sind : ℚ → ℚ
  sqrt : ℚ → ℚ
  atan2d : ℚ → ℚ → ℚ
  pi : ℚ

/-- Python's `int()` applied to a rational: truncation toward zero. -/
def pytrunc (q : ℚ) : ℤ := if 0 ≤ q then ⌊q⌋ else ⌈q⌉

/-- Loop body of geometry_to_line.py lines 89-151 (`lines_to_points`), with the
mutable locals `num_segments`, `segment_length` and `point_index` threaded as
state. The `segment_length` branch (lines 111-117) turns `num_segments` into a
float, so the later `range(0, num_segments)` raises `TypeError`; the vertical
slope of line 127 raises `ZeroDivisionError` first when `start.x == end.x`. -/
def lines_to_points_go (units : String) :
    ℤ → ℚ → ℕ → TGeometryList → Except PyErr TGeometryList
  | _, _, _, [] => .ok []
  | num_segments, segment_length, point_index, line :: rest =>
    let values := line.2
    let start_point := values.getD 0 []
    let end_point := values.getD 1 []
    let sx := start_point.getD 0 0
    let sy := start_point.getD 1 0
    let ex := end_point.getD 0 0
    let ey := end_point.getD 1 0
    if units ∈ UNIT_TABLE then
      -- lines 105-124: parameter resolution (num_segments is truthiness-tested)
      let ns : ℤ := if num_segments ≠ 0 then num_segments
        else if segment_length ≠ 0 then num_segments else NUM_SEGMENTS
      let x_difference : ℚ := (ex - sx) / (ns : ℚ)
      -- line 127: slope; ZeroDivisionError on a vertical line
      if sx - ex = 0 then .error .zeroDivision
      else
        let slope := (sy - ey) / (sx - ex)
        let y_intercept := sy - slope * sx
        if num_segments = 0 ∧ segment_length ≠ 0 then .error .typeError
        else
          let pts : TGeometryList := (List.range ns.toNat).map
            (fun (index : ℕ) =>
              let x := sx + x_difference * (index : ℚ) *
                (if sx - ex > 0 then 1 else -1)
              let y := x * slope + y_intercept
              ("POINT:" ++ toString (point_index + index), [[x, y, 0]]))
          match lines_to_points_go units ns segment_length
              (point_index + ns.toNat) rest with
          | .error e => .error e
          | .ok restPts => .ok (pts ++ restPts)
    else .error .invalidUnits

/-- geometry_to_line.py lines 67-154 `lines_to_points`. -/
def lines_to_points (given_lines : TGeometryList) (num_segments : ℤ)
    (segment_length : ℚ) (units : String) : Except PyErr TGeometryList :=
  lines_to_points_go units num_segments segment_length 0 given_lines

/-- Loop body of geometry_to_line.py lines 178-271 (`arc_to_lines`), with the
mutable locals `num_segments` and `line_index` threaded as state. -/
def arc_to_lines_go (mf : MathFuncs) (units : String) :
    ℤ → ℚ → ℕ → TGeometryList → Except PyErr TGeometryList
  | _, _, _, [] => .ok []
  | num_segments, segment_length, line_index, arc :: rest =>
    let values := arc.2
    let center := values.getD 0 []
    let radius := (values.getD 1 []).getD 0 0
    let start_angle := (values.getD 1 []).getD 1 0
    let end_angle := (values.getD 1 []).getD 2 0
    let degree := end_angle - start_angle
    if units ∈ UNIT_TABLE then
      let conversion_factor := conversion_factor_of units
      -- lines 200-219: parameter resolution (`num_segments > 2` here)
      let resolved : Except PyErr (ℤ × ℚ) :=
        if num_segments > 2 then .ok (num_segments, degree / (num_segments : ℚ))
        else if segment_length > 0 then
          if radius * 2 * mf.pi = 0 then .error .zeroDivision
          else
            let segment_angle :=
              segment_length * conversion_factor / (radius * 2 * mf.pi) * 360
            if segment_angle = 0 then .error .zeroDivision
            else .ok (pytrunc (degree / segment_angle), segment_angle)
        else .ok (NUM_SEGMENTS, degree / (NUM_SEGMENTS : ℚ))
      match resolved with
      | .error e => .error e
      | .ok (ns, segment_angle) =>
        -- lines 222-233: sample num_segments+1 points on the arc
        let points : List (List ℚ) := (List.range (ns + 1).toNat).map
          (fun (index : ℕ) =>
            let angle := start_angle + segment_angle * (index : ℚ)
            let x := radius * mf.cosd angle / conversion_factor
            let y := radius * mf.sind angle / conversion_factor
            [x + center.getD 0 0, y + center.getD 1 0, center.getD 2 0])
        -- lines 236-252: one chord per consecutive point pair
        let chords : TGeometryList := (List.range ns.toNat).map
          (fun (index : ℕ) =>
            ("LINE:" ++ toString (line_index + index),
            [(points.getD index []).map (fun x => conversion_factor * x),
             (points.getD (index + 1) []).map (fun x => conversion_factor * x)]))
        -- lines 255-271: closing segment for a full circle
        let closing : TGeometryList :=
          if degree = 360 then
            [("LINE:" ++ toString (line_index + ns.toNat),
              [(points.getD ns.toNat []).map (fun x => conversion_factor * x),
               (points.getD 0 []).map (fun x => conversion_factor * x)])]
          else []
        let idx := line_index + ns.toNat + (if degree = 360 then 1 else 0)
        match arc_to_lines_go mf units ns segment_length idx rest with
        | .error e => .error e
        | .ok restLines => .ok (chords ++ closing ++ restLines)
    else .error .invalidUnits

/-- geometry_to_line.py lines 156-274 `arc_to_lines`. -/
def arc_to_lines (mf : MathFuncs) (given_arcs : TGeometryList)
    (num_segments : ℤ) (segment_length : ℚ) (units : String) :
    Except PyErr TGeometryList :=
  arc_to_lines_go mf units num_segments segment_length 0 given_arcs

/-- geometry_to_line.py lines 359-375: sampling loop of `ellipse_to_arcs`.
Computes, for each index, `theta = index*angle` and the polar radius
`a*b/sqrt((b*cos θ)² + (a*sin θ)²)` (ZeroDivisionError when the sqrt is 0),
yielding the sampled point offset by the ellipse center. -/
def ellipse_points_loop (mf : MathFuncs) (a b c0 c1 c2 angle : ℚ) :
    List ℕ → Except PyErr (List (List ℚ))
  | [] => .ok []
  | index :: rest =>
    let theta := (index : ℚ) * angle
    let s := mf.sqrt ((b * mf.cosd theta) ^ 2 + (a * mf.sind theta) ^ 2)
    if s = 0 then .error .zeroDivision
    else
      let radius := a * b / s
      let x := radius * mf.cosd theta
      let y := radius * mf.sind theta
      match ellipse_points_loop mf a b c0 c1 c2 angle rest with
      | .error e => .error e
      | .ok restPts => .ok ([x + c0, y + c1, c2] :: restPts)

/-- geometry_to_line.py lines 378-418: the three-point circle-fit loop of
`ellipse_to_arcs`. The `try`/`except ZeroDivisionError` of lines 388-393 only
logs a warning: on a failed fit the previously fitted `cx`/`cy` (threaded here
as the `Option (ℚ × ℚ)` state, `none` while still unassigned) are reused by
the following lines; when no previous fit exists, line 396 raises `NameError`.
Returns the produced arcs together with the next `arc_index` and the final
`cx`/`cy` state. -/
def ellipse_fit_loop (mf : MathFuncs) (conversion_factor : ℚ)
    (pts : List (List ℚ)) :
    List ℕ → ℕ → Option (ℚ × ℚ) →
    Except PyErr (TGeometryList × ℕ × Option (ℚ × ℚ))
  | [], arc_index, st => .ok ([], arc_index, st)
  | index :: rest, arc_index, st =>
    let p1x := (pts.getD (2 * index) []).getD 0 0
    let p1y := (pts.getD (2 * index) []).getD 1 0
    let p2x := (pts.getD (2 * index + 1) []).getD 0 0
    let p2y := (pts.getD (2 * index + 1) []).getD 1 0
    let p3x := (pts.getD ((2 * index + 2) % pts.length) []).getD 0 0
    let p3y := (pts.getD ((2 * index + 2) % pts.length) []).getD 1 0
    -- lines 388-393: the guarded circumcenter fit
    let fit : Option (ℚ × ℚ) :=
      if 2 * p1y - 2 * p3y = 0 then none
      else
        let bigDen := (2 * p1x - 2 * p2x) -
          (2 * p1y - 2 * p2y) * (2 * p1x - 2 * p3x) / (2 * p1y - 2 * p3y)
        if bigDen = 0 then none
        else
          let cx := ((p1x * p1x + p1y * p1y - p2x * p2x - p2y * p2y) -
            ((2 * p1y - 2 * p2y) *
              (p1x * p1x + p1y * p1y - p3x * p3x - p3y * p3y)) /
              (2 * p1y - 2 * p3y)) / bigDen
          let cy := (p1x * p1x + p1y * p1y - p3x * p3x - p3y * p3y) /
            (2 * p1y - 2 * p3y) - cx * ((2 * p1x - 2 * p3x) / (2 * p1y - 2 * p3y))
          some (cx, cy)
    let st' := match fit with
      | some c => some c
      | none => st
    match st' with
    | none => .error .nameError
    | some (cx, cy) =>
      let radius := mf.sqrt ((p1x - cx) ^ 2 + (p1y - cy) ^ 2)
      let start_angle := mf.atan2d (p1y - cy) (p1x - cx)
      let end_angle := mf.atan2d (p3y - cy) (p3x - cx)
      let entry : TGeometryItem :=
        ("ARC:" ++ toString arc_index,
          [[cx / conversion_factor, cy / conversion_factor, 0],
           [radius / conversion_factor, start_angle, end_angle]])
      match ellipse_fit_loop mf conversion_factor pts rest (arc_index + 1) st' with
      | .error e => .error e
      | .ok (tail, idx, stf) => .ok (entry :: tail, idx, stf)

/-- Loop body of geometry_to_line.py lines 301-419 (`ellipse_to_arcs`), with
the mutable locals `arc_index`, `num_segments` and the fitted `cx`/`cy`
threaded as state. In the `segment_length` branch (lines 328-342)
`num_segments` is never assigned (the FIXME in the source), so both inner
loops run zero iterations there. -/
def ellipse_to_arcs_go (mf : MathFuncs) (units : String) :
    ℤ → ℚ → ℕ → Option (ℚ × ℚ) → TGeometryList → Except PyErr TGeometryList
  | _, _, _, _, [] => .ok []
  | num_segments, segment_length, arc_index, st, ellipse :: rest =>
    let values := ellipse.2
    let center := values.getD 0 []
    let major_radius := (values.getD 1 []).getD 0 0
    let minor_radius := (values.getD 2 []).getD 0 0 * major_radius
    if units ∈ UNIT_TABLE then
      let conversion_factor := conversion_factor_of units
      -- lines 323-352: parameter resolution; `.ok none` models `continue`
      let resolved : Except PyErr (Option (ℤ × ℚ)) :=
        if num_segments ≠ 0 then .ok (some (num_segments, 360 / (num_segments : ℚ) / 2))
        else if segment_length ≠ 0 then
          let circumfrance := 2 * mf.pi *
            mf.sqrt ((major_radius * major_radius + minor_radius * minor_radius) / 2)
          if segment_length / conversion_factor > circumfrance then .ok none
          else if circumfrance = 0 then .error .zeroDivision
          else .ok (some (num_segments, segment_length / circumfrance * 360))
        else .ok (some (NUM_SEGMENTS, 360 / (NUM_SEGMENTS : ℚ) / 2))
      match resolved with
      | .error e => .error e
      | .ok none => ellipse_to_arcs_go mf units num_segments segment_length arc_index st rest
      | .ok (some (ns, angle)) =>
        match ellipse_points_loop mf major_radius minor_radius (center.getD 0 0)
            (center.getD 1 0) (center.getD 2 0) angle
            (List.range (2 * ns).toNat) with
        | .error e => .error e
        | .ok points =>
          match ellipse_fit_loop mf conversion_factor points
              (List.range ns.toNat) arc_index st with
          | .error e => .error e
          | .ok (arcs, idx, stf) =>
            match ellipse_to_arcs_go mf units ns segment_length idx stf rest with
            | .error e => .error e
            | .ok restArcs => .ok (arcs ++ restArcs)
    else .error .invalidUnits

/-- geometry_to_line.py lines 276-423 `ellipse_to_arcs`. -/
def ellipse_to_arcs (mf : MathFuncs) (given_ellipsis : TGeometryList)
    (num_segments : ℤ) (segment_length : ℚ) (units : String) :
    Except PyErr TGeometryList :=
  ellipse_to_arcs_go mf units num_segments segment_length 0 none given_ellipsis

/-- Rank of a geometry-kind string along the recursion of `convert_to`; used
only as a termination measure. -/
def kind_rank : String → ℕ
  | "LINE" => 1
  | "ARC" => 2
  | "ELLIPSE" => 3
  | _ => 0

/-- geometry_to_line.py lines 425-461 `convert_to`. The recursive calls pass
only three arguments in the source, so the remaining parameters revert to the
Python defaults `0, 0, 'um'`. A fall-through (source kind without a branch)
returns Python `None`, modelled as `.ok none`. -/
def convert_to (mf : MathFuncs) (given_geometry_type return_geometry_type : String)
    (given_geometry : TGeometryList) (num_segments : ℤ) (min_length : ℚ)
    (units : String) : Except PyErr (Option TGeometryList) :=
  if given_geometry_type = return_geometry_type then .ok (some given_geometry)
  else if given_geometry_type = "LINE" then
    match lines_to_points given_geometry num_segments min_length units with
    | .error e => .error e
    | .ok pts => convert_to mf "POINT" return_geometry_type pts 0 0 "um"
  else if given_geometry_type = "ARC" then
    match arc_to_lines mf given_geometry num_segments min_length units with
    | .error e => .error e
    | .ok lns => convert_to mf "LINE" return_geometry_type lns 0 0 "um"
  else if given_geometry_type = "ELLIPSE" then
    match ellipse_to_arcs mf given_geometry num_segments min_length units with
    | .error e => .error e
    | .ok arcs => convert_to mf "ARC" return_geometry_type arcs 0 0 "um"
  else .ok none
termination_by kind_rank given_geometry_type
decreasing_by all_goals subst_vars; decide

/-- A concrete instantiation of the abstract math functions, used by closed
counterexample and witness theorems whose conclusions do not depend on the
transcendental values. -/
def mf0 : MathFuncs where
  cosd := fun _ => 0
  sind := fun _ => 0
  sqrt := fun _ => 0
  atan2d := fun _ _ => 0
  pi := 0

/-- The rank index of SPLINE in the `geometries` list. -/
theorem indexOf_spline : geometries.indexOf? "SPLINE" = some 4 := by decide

/-- The rank index of LWPOLYLINE in the `geometries` list. -/
theorem indexOf_lwpolyline : geometries.indexOf? "LWPOLYLINE" = some 5 := by decide

/-- Unfolding of the generic rank scan from index 4 (below SPLINE). -/
theorem scan_below_four (A : List String) : scan_below A 4 =
    (if "ELLIPSE" ∈ A then some "ELLIPSE"
     else if "ARC" ∈ A then some "ARC"
     else if "LINE" ∈ A then some "LINE"
     else if "POINT" ∈ A then some "POINT"
     else none) := rfl

/-- Unfolding of the generic rank scan from index 5 (below LWPOLYLINE). -/
theorem scan_below_five (A : List String) : scan_below A 5 =
    (if "SPLINE" ∈ A then some "SPLINE"
     else if "ELLIPSE" ∈ A then some "ELLIPSE"
     else if "ARC" ∈ A then some "ARC"
     else if "LINE" ∈ A then some "LINE"
     else if "POINT" ∈ A then some "POINT"
     else none) := rfl

/-! ## Claim C1 -/

/-- Claim C1 as stated is false: for a SPLINE source whose allowed set contains
ARC but neither LINE nor POINT, `get_hifi_geometry` falls through the special
case into the generic rank scan and returns ARC, not the claimed "no kind". -/
theorem C1_counterexample :
    get_hifi_geometry "SPLINE" ["ARC"] = .ok (some "ARC") ∧
    get_hifi_geometry "SPLINE" ["ARC"] ≠ .ok none := by
  constructor
  · decide
  · decide

/-- Claim C1 amended: resolving a SPLINE source returns LINE if LINE is
allowed, else POINT if POINT is allowed; otherwise the special case falls
through to the generic rank scan strictly below SPLINE, yielding ELLIPSE if
allowed, else ARC if allowed, else no kind. In particular ARC is returned for
a SPLINE source when ARC is allowed but LINE and POINT are not. -/
theorem C1_amended (allowedtypes : List String) :
    get_hifi_geometry "SPLINE" allowedtypes = .ok (
      if "LINE" ∈ allowedtypes then some "LINE"
      else if "POINT" ∈ allowedtypes then some "POINT"
      else if "ELLIPSE" ∈ allowedtypes then some "ELLIPSE"
      else if "ARC" ∈ allowedtypes then some "ARC"
      else none) := by
  by_cases h1 : "LINE" ∈ allowedtypes <;>
    by_cases h2 : "POINT" ∈ allowedtypes <;>
      by_cases h3 : "ELLIPSE" ∈ allowedtypes <;>
        by_cases h4 : "ARC" ∈ allowedtypes <;>
          simp [get_hifi_geometry, indexOf_spline, scan_below_four, h1, h2, h3, h4]

/-! ## Claim C2 -/

/-- Claim C2 as stated is false: for a LWPOLYLINE source whose allowed set
contains ARC but neither LINE nor POINT, `get_hifi_geometry` falls through the
special case into the generic rank scan and returns ARC, where the claim says
no kind is returned (POINT is absent). -/
theorem C2_counterexample :
    get_hifi_geometry "LWPOLYLINE" ["ARC"] = .ok (some "ARC") ∧
    get_hifi_geometry "LWPOLYLINE" ["ARC"] ≠ .ok none := by
  constructor
  · decide
  · decide

/-- Claim C2 amended: resolving a LWPOLYLINE source returns ARC when both ARC
and LINE are allowed, LINE when LINE is allowed without ARC, else POINT when
POINT is allowed; otherwise the special case falls through to the generic rank
scan strictly below LWPOLYLINE, yielding SPLINE if allowed, else ELLIPSE,
else ARC, else no kind. -/
theorem C2_amended (allowedtypes : List String) :
    get_hifi_geometry "LWPOLYLINE" allowedtypes = .ok (
      if "LINE" ∈ allowedtypes then
        (if "ARC" ∈ allowedtypes then some "ARC" else some "LINE")
      else if "POINT" ∈ allowedtypes then some "POINT"
      else if "SPLINE" ∈ allowedtypes then some "SPLINE"
      else if "ELLIPSE" ∈ allowedtypes then some "ELLIPSE"
      else if "ARC" ∈ allowedtypes then some "ARC"
      else none) := by
  by_cases h1 : "LINE" ∈ allowedtypes <;>
    by_cases h2 : "POINT" ∈ allowedtypes <;>
      by_cases h3 : "SPLINE" ∈ allowedtypes <;>
        by_cases h4 : "ELLIPSE" ∈ allowedtypes <;>
          by_cases h5 : "ARC" ∈ allowedtypes <;>
            simp [get_hifi_geometry, indexOf_lwpolyline, scan_below_five, h1, h2, h3, h4, h5]

/-! ## Claim C4 -/

/-- Claim C4's divergence: on a vertical line (start.x = end.x = 1) the slope
computation of `lines_to_points` divides by zero; the Python code does not
catch it, so the whole call aborts with an uncaught ZeroDivisionError instead
of flagging a DegenerateGeometry condition and continuing. -/
theorem C4_theorem :
    lines_to_points [("LINE:0", [[1, 0, 0], [1, 5, 0]])] 2 0 "um" =
      .error .zeroDivision := by
  simp [lines_to_points, lines_to_points_go, UNIT_TABLE]

/-! ## Claim C5 -/

/-- Evaluation of `List.range 5`, shared by concrete-run proofs. -/
theorem range_five : List.range 5 = [0, 1, 2, 3, 4] := by decide

/-- Claim C5's divergence: for the line from (0,0,0) to (10,10,0) with
num_segments = 5, the produced x-coordinates are 0, -2, -4, -6, -8 — the
double sign flip in `x_difference*index*(1 if start.x-end.x > 0 else -1)`
walks away from end.x whenever start.x < end.x, so the points are not between
start.x and end.x as the claim states (the second x-coordinate -2 lies outside
[0, 10]). -/
theorem C5_theorem :
    (lines_to_points [("LINE:0", [[0, 0, 0], [10, 10, 0]])] 5 0 "um").map
        (List.map Prod.snd) =
      .ok [[[0, 0, 0]], [[-2, -2, 0]], [[-4, -4, 0]], [[-6, -6, 0]],
           [[-8, -8, 0]]] ∧
    ¬((0 : ℚ) ≤ -2 ∧ (-2 : ℚ) ≤ 10) := by
  constructor
  · simp [lines_to_points, lines_to_points_go, UNIT_TABLE, range_five, Except.map]
    norm_num
  · norm_num

/-! ## Claim C9 -/

/-- Unit-independence of `lines_to_points_go` when `num_segments` is nonzero:
the conversion factor is consulted only by the `segment_length` branch, which
is not taken, so any two recognized unit strings give identical runs. -/
theorem lines_go_units (L : TGeometryList) :
    ∀ (n : ℤ) (sl : ℚ) (i : ℕ) (u1 u2 : String),
      u1 ∈ UNIT_TABLE → u2 ∈ UNIT_TABLE → n ≠ 0 →
      lines_to_points_go u1 n sl i L = lines_to_points_go u2 n sl i L := by
  induction L with
  | nil => intros; rfl
  | cons l rest ih =>
    intro n sl i u1 u2 h1 h2 hn
    have hrec := ih n sl (i + n.toNat) u1 u2 h1 h2 hn
    simp [lines_to_points_go, h1, h2, hn, hrec]

/-- Claim C9: for every input line list and every num_segments > 0,
`lines_to_points` returns an identical result (values and errors alike) for
any two recognized unit strings; the units argument only affects validation
and the segment_length-derived path. -/
theorem C9_theorem (given_lines : TGeometryList) (n : ℤ) (sl : ℚ)
    (u1 u2 : String) (h1 : u1 ∈ UNIT_TABLE) (h2 : u2 ∈ UNIT_TABLE)
    (hn : 0 < n) :
    lines_to_points given_lines n sl u1 = lines_to_points given_lines n sl u2 :=
  lines_go_units given_lines n sl 0 u1 u2 h1 h2 hn.ne'

/-- Witness for C9 at a concrete input: inches versus millimeters on one line
with num_segments = 2. -/
theorem C9_witness :
    lines_to_points [("LINE:0", [[0, 0, 0], [10, 10, 0]])] 2 0 "in" =
      lines_to_points [("LINE:0", [[0, 0, 0], [10, 10, 0]])] 2 0 "mm" :=
  C9_theorem [("LINE:0", [[0, 0, 0], [10, 10, 0]])] 2 0 "in" "mm"
    (by decide) (by decide) (by decide)

/-! ## Claim C3 -/

/-- Evaluation of `List.range 10`, shared by concrete-run proofs. -/
theorem range_ten : List.range 10 = [0, 1, 2, 3, 4, 5, 6, 7, 8, 9] := by decide

/-- Evaluation of `List.range 11`, shared by concrete-run proofs. -/
theorem range_eleven :
    List.range 11 = [0, 1, 2, 3, 4, 5, 6, 7, 8, 9, 10] := by decide

/-- Claim C3 as stated is false: `arc_to_lines` does not use a supplied
num_segments > 0 directly. With num_segments = 2 (and segment_length = 0) on a
90-degree arc it produces 10 chords — the default — rather than the 2 chords
the claimed shared rule requires. -/
theorem C3_counterexample :
    (arc_to_lines mf0 [("ARC:0", [[0, 0, 0], [1, 0, 90]])] 2 0 "um").map
        List.length = .ok 10 ∧ (10 : ℕ) ≠ 2 := by
  constructor
  · simp [arc_to_lines, arc_to_lines_go, UNIT_TABLE, NUM_SEGMENTS, range_ten,
      range_eleven, Except.map]
  · decide

/-- Single non-vertical line, nonzero num_segments: `lines_to_points` emits
exactly `num_segments.toNat` points. -/
theorem lines_single_len (u : String) (hu : u ∈ UNIT_TABLE) (n : ℤ)
    (hn : n ≠ 0) (sl : ℚ) (nm : String) (sx sy sz ex ey ez : ℚ)
    (hv : sx - ex ≠ 0) :
    (lines_to_points [(nm, [[sx, sy, sz], [ex, ey, ez]])] n sl u).map
      List.length = .ok n.toNat := by
  simp [lines_to_points, lines_to_points_go, hu, hn, hv, Except.map]

/-- Single non-vertical line, both parameters zero: `lines_to_points` defaults
to 10 points. -/
theorem lines_single_len_default (u : String) (hu : u ∈ UNIT_TABLE)
    (nm : String) (sx sy sz ex ey ez : ℚ) (hv : sx - ex ≠ 0) :
    (lines_to_points [(nm, [[sx, sy, sz], [ex, ey, ez]])] 0 0 u).map
      List.length = .ok 10 := by
  simp [lines_to_points, lines_to_points_go, hu, hv, Except.map, NUM_SEGMENTS]

/-- Single arc, num_segments > 2: `arc_to_lines` emits `num_segments.toNat`
chords, plus a closing line when the arc spans exactly 360 degrees. -/
theorem arc_single_len_direct (mf : MathFuncs) (u : String)
    (hu : u ∈ UNIT_TABLE) (n : ℤ) (hn : 2 < n) (sl : ℚ) (nm : String)
    (c0 c1 c2 r sa ea : ℚ) :
    (arc_to_lines mf [(nm, [[c0, c1, c2], [r, sa, ea]])] n sl u).map
      List.length = .ok (n.toNat + if ea - sa = 360 then 1 else 0) := by
  by_cases hdeg : ea - sa = 360 <;>
    simp [arc_to_lines, arc_to_lines_go, hu, hn, hdeg, Except.map]

/-- Single arc, num_segments ≤ 2 and segment_length = 0: `arc_to_lines` falls
back to the default of 10 chords (plus the closing line on a full circle),
even though a positive num_segments was supplied. -/
theorem arc_single_len_default (mf : MathFuncs) (u : String)
    (hu : u ∈ UNIT_TABLE) (n : ℤ) (hn : n ≤ 2) (nm : String)
    (c0 c1 c2 r sa ea : ℚ) :
    (arc_to_lines mf [(nm, [[c0, c1, c2], [r, sa, ea]])] n 0 u).map
      List.length = .ok (10 + if ea - sa = 360 then 1 else 0) := by
  have hng : ¬(n > 2) := by omega
  by_cases hdeg : ea - sa = 360 <;>
    simp [arc_to_lines, arc_to_lines_go, hu, hng, hdeg, Except.map,
      NUM_SEGMENTS]

/-- A successful run of the circle-fit loop appends exactly one arc per
index. -/
theorem ellipse_fit_loop_length (mf : MathFuncs) (cf : ℚ)
    (pts : List (List ℚ)) (L : List ℕ) :
    ∀ (idx : ℕ) (st : Option (ℚ × ℚ)) res,
      ellipse_fit_loop mf cf pts L idx st = .ok res →
      res.1.length = L.length := by
  induction L with
  | nil =>
    intro idx st res h
    simp only [ellipse_fit_loop] at h
    cases h
    rfl
  | cons j rest ih =>
    intro idx st res h
    simp only [ellipse_fit_loop] at h
    split at h
    · exact absurd h (by simp)
    · split at h
      · exact absurd h (by simp)
      · cases h
        simpa using ih _ _ _ (by assumption)

/-- Single ellipse, nonzero num_segments: every successful run of
`ellipse_to_arcs` emits exactly `num_segments.toNat` arcs. -/
theorem ellipse_single_len (mf : MathFuncs) (u : String) (hu : u ∈ UNIT_TABLE)
    (n : ℤ) (hn : n ≠ 0) (sl : ℚ) (nm : String) (e0 e1 e2 a ratio : ℚ) :
    ∀ arcs, ellipse_to_arcs mf [(nm, [[e0, e1, e2], [a, 0, 0], [ratio]])] n sl u
      = .ok arcs → arcs.length = n.toNat := by
  intro arcs h
  simp only [ellipse_to_arcs, ellipse_to_arcs_go, hu, hn, if_true, if_false,
    ite_true, ite_false, ne_eq, not_false_eq_true, if_pos] at h
  split at h
  · exact absurd h (by simp)
  · split at h
    · exact absurd h (by simp)
    · rename_i pl hpl x2 tail idx stf heq
      injection h with h2
      subst h2
      have hlen := ellipse_fit_loop_length mf (conversion_factor_of u) pl
        (List.range n.toNat) 0 none _ heq
      simpa using hlen

/-- Single ellipse, both parameters zero: every successful run of
`ellipse_to_arcs` emits exactly 10 arcs (the default). -/
theorem ellipse_single_len_default (mf : MathFuncs) (u : String)
    (hu : u ∈ UNIT_TABLE) (nm : String) (e0 e1 e2 a ratio : ℚ) :
    ∀ arcs, ellipse_to_arcs mf [(nm, [[e0, e1, e2], [a, 0, 0], [ratio]])] 0 0 u
      = .ok arcs → arcs.length = 10 := by
  intro arcs h
  simp only [ellipse_to_arcs, ellipse_to_arcs_go, hu, if_true, if_false,
    ite_true, ite_false, ne_eq, not_true, eq_self_iff_true, if_pos,
    not_false_eq_true] at h
  split at h
  · exact absurd h (by simp)
  · split at h
    · exact absurd h (by simp)
    · rename_i pl hpl x2 tail idx stf heq
      injection h with h2
      subst h2
      have hlen := ellipse_fit_loop_length mf (conversion_factor_of u) pl
        (List.range NUM_SEGMENTS.toNat) 0 none _ heq
      simpa [NUM_SEGMENTS] using hlen

/-- Claim C3 amended: the three tessellation stages do NOT share one
parameter-resolution rule. `lines_to_points` and `ellipse_to_arcs` use a
nonzero `num_segments` directly, and all three stages default to
`num_segments = 10` when both parameters are zero; but `arc_to_lines` uses the
supplied `num_segments` directly only when it exceeds 2, silently substituting
the default 10 when `0 < num_segments ≤ 2` and `segment_length` is not
positive. (Observed through the number of emitted elements: one output element
per resolved segment for lines and ellipses, one chord per resolved segment
plus a closing line on full circles for arcs.) -/
theorem C3_amended (mf : MathFuncs) (u : String) (hu : u ∈ UNIT_TABLE)
    (n : ℤ) (sl : ℚ) (nmL nmA nmE : String) (sx sy sz ex ey ez : ℚ)
    (hv : sx - ex ≠ 0) (c0 c1 c2 r sa ea : ℚ) (e0 e1 e2 a ratio : ℚ) :
    (0 < n →
      (lines_to_points [(nmL, [[sx, sy, sz], [ex, ey, ez]])] n sl u).map
        List.length = .ok n.toNat) ∧
    ((lines_to_points [(nmL, [[sx, sy, sz], [ex, ey, ez]])] 0 0 u).map
        List.length = .ok 10) ∧
    (2 < n →
      (arc_to_lines mf [(nmA, [[c0, c1, c2], [r, sa, ea]])] n sl u).map
        List.length = .ok (n.toNat + if ea - sa = 360 then 1 else 0)) ∧
    (0 < n → n ≤ 2 →
      (arc_to_lines mf [(nmA, [[c0, c1, c2], [r, sa, ea]])] n 0 u).map
        List.length = .ok (10 + if ea - sa = 360 then 1 else 0)) ∧
    (0 < n → ∀ arcs,
      ellipse_to_arcs mf [(nmE, [[e0, e1, e2], [a, 0, 0], [ratio]])] n sl u
        = .ok arcs → arcs.length = n.toNat) ∧
    (∀ arcs,
      ellipse_to_arcs mf [(nmE, [[e0, e1, e2], [a, 0, 0], [ratio]])] 0 0 u
        = .ok arcs → arcs.length = 10) :=
  ⟨fun hn => lines_single_len u hu n hn.ne' sl nmL sx sy sz ex ey ez hv,
   lines_single_len_default u hu nmL sx sy sz ex ey ez hv,
   fun hn => arc_single_len_direct mf u hu n hn sl nmA c0 c1 c2 r sa ea,
   fun _ hn2 => arc_single_len_default mf u hu n hn2 nmA c0 c1 c2 r sa ea,
   fun hn => ellipse_single_len mf u hu n hn.ne' sl nmE e0 e1 e2 a ratio,
   ellipse_single_len_default mf u hu nmE e0 e1 e2 a ratio⟩

/-- Witness for C3's amended statement at concrete inputs: unit microns, a
non-vertical line, a quarter arc and an ellipse, with num_segments 4. -/
theorem C3_witness :
    ((lines_to_points [("LINE:0", [[0, 0, 0], [10, 10, 0]])] 4 0 "um").map
        List.length = .ok 4) ∧
    ((lines_to_points [("LINE:0", [[0, 0, 0], [10, 10, 0]])] 0 0 "um").map
        List.length = .ok 10) ∧
    ((arc_to_lines mf0 [("ARC:0", [[0, 0, 0], [1, 0, 90]])] 4 0 "um").map
        List.length = .ok (4 + if (90 : ℚ) - 0 = 360 then 1 else 0)) ∧
    ((arc_to_lines mf0 [("ARC:0", [[0, 0, 0], [1, 0, 90]])] 2 0 "um").map
        List.length = .ok (10 + if (90 : ℚ) - 0 = 360 then 1 else 0)) := by
  have h := C3_amended mf0 "um" (by decide) 4 0 "LINE:0" "ARC:0" "ELLIPSE:0"
    0 0 0 10 10 0 (by norm_num) 0 0 0 1 0 90 0 0 0 1 1
  have h2 := C3_amended mf0 "um" (by decide) 2 0 "LINE:0" "ARC:0" "ELLIPSE:0"
    0 0 0 10 10 0 (by norm_num) 0 0 0 1 0 90 0 0 0 1 1
  exact ⟨h.1 (by decide), h.2.1, h.2.2.1 (by decide),
    h2.2.2.2.1 (by decide) (by decide)⟩

/-! ## Claim C7 -/

/-- Claim C7 as stated is false: on a full-circle arc with num_segments = 1
supplied directly, `arc_to_lines` produces 11 line records (the default 10
chords plus the closing line), not the claimed N+1 = 2, because a supplied
num_segments of 2 or less is replaced by the default. -/
theorem C7_counterexample :
    (arc_to_lines mf0 [("ARC:0", [[0, 0, 0], [1, 0, 360]])] 1 0 "um").map
        List.length = .ok 11 ∧ (11 : ℕ) ≠ 1 + 1 := by
  constructor
  · simp [arc_to_lines, arc_to_lines_go, UNIT_TABLE, NUM_SEGMENTS, range_ten,
      range_eleven, Except.map]
  · decide

/-- Claim C7 amended: for every arc spanning exactly 360 degrees and every
num_segments = N > 2 supplied directly, `arc_to_lines` produces exactly N+1
Line records (N chords plus one closing line), and the closing line's end
point equals the first chord's start point (exactly, in the rational model). -/
theorem C7_amended (mf : MathFuncs) (u : String) (hu : u ∈ UNIT_TABLE)
    (n : ℤ) (hn : 2 < n) (sl : ℚ) (nm : String) (c0 c1 c2 r sa ea : ℚ)
    (hdeg : ea - sa = 360) :
    ((arc_to_lines mf [(nm, [[c0, c1, c2], [r, sa, ea]])] n sl u).map
        List.length = .ok (n.toNat + 1)) ∧
    ((arc_to_lines mf [(nm, [[c0, c1, c2], [r, sa, ea]])] n sl u).map
        (fun L => L.getLast?.map (fun it => it.2.getD 1 [])) =
      (arc_to_lines mf [(nm, [[c0, c1, c2], [r, sa, ea]])] n sl u).map
        (fun L => L.head?.map (fun it => it.2.getD 0 []))) := by
  constructor
  · have h := arc_single_len_direct mf u hu n hn sl nm c0 c1 c2 r sa ea
    simpa [hdeg] using h
  · obtain ⟨k, hk⟩ : ∃ k, n.toNat = k + 1 := ⟨n.toNat - 1, by omega⟩
    simp [arc_to_lines, arc_to_lines_go, hu, hn, hdeg, Except.map]
    simp [hk, List.range_succ_eq_map]

/-- Witness for C7's amended statement: a unit full circle with
num_segments = 4 yields 5 lines whose closing end equals the first start. -/
theorem C7_witness :
    ((arc_to_lines mf0 [("ARC:0", [[0, 0, 0], [1, 0, 360]])] 4 0 "um").map
        List.length = .ok ((4 : ℤ).toNat + 1)) ∧
    ((arc_to_lines mf0 [("ARC:0", [[0, 0, 0], [1, 0, 360]])] 4 0 "um").map
        (fun L => L.getLast?.map (fun it => it.2.getD 1 [])) =
      (arc_to_lines mf0 [("ARC:0", [[0, 0, 0], [1, 0, 360]])] 4 0 "um").map
        (fun L => L.head?.map (fun it => it.2.getD 0 []))) :=
  C7_amended mf0 "um" (by decide) 4 (by decide) 0 "ARC:0" 0 0 0 1 0 360
    (by norm_num)

/-! ## Claim C10 -/

/-- Every arc emitted by the circle-fit loop carries a center whose third
coordinate is the literal 0 (geometry_to_line.py line 407). -/
theorem ellipse_fit_loop_centerz (mf : MathFuncs) (cf : ℚ)
    (pts : List (List ℚ)) (L : List ℕ) :
    ∀ (idx : ℕ) (st : Option (ℚ × ℚ)) res,
      ellipse_fit_loop mf cf pts L idx st = .ok res →
      ∀ x ∈ res.1, (x.2.getD 0 []).getD 2 0 = 0 := by
  induction L with
  | nil =>
    intro idx st res h x hx
    simp only [ellipse_fit_loop] at h
    cases h
    simp at hx
  | cons j rest ih =>
    intro idx st res h x hx
    simp only [ellipse_fit_loop] at h
    split at h
    · exact absurd h (by simp)
    · split at h
      · exact absurd h (by simp)
      · cases h
        rcases List.mem_cons.mp hx with hx1 | hx2
        · subst hx1; rfl
        · exact ih _ _ _ (by assumption) x hx2

/-- Center-z invariant of the main `ellipse_to_arcs` loop, for any starting
state. -/
theorem ellipse_go_centerz (mf : MathFuncs) (u : String)
    (ells : TGeometryList) :
    ∀ (n : ℤ) (sl : ℚ) (ai : ℕ) (st : Option (ℚ × ℚ)) res,
      ellipse_to_arcs_go mf u n sl ai st ells = .ok res →
      ∀ x ∈ res, (x.2.getD 0 []).getD 2 0 = 0 := by
  induction ells with
  | nil =>
    intro n sl ai st res h x hx
    simp only [ellipse_to_arcs_go] at h
    cases h
    simp at hx
  | cons e rest ih =>
    intro n sl ai st res h x hx
    simp only [ellipse_to_arcs_go] at h
    split at h
    · split at h
      · exact absurd h (by simp)
      · exact ih _ _ _ _ _ h x hx
      · split at h
        · exact absurd h (by simp)
        · split at h
          · exact absurd h (by simp)
          · split at h
            · exact absurd h (by simp)
            · cases h
              rcases List.mem_append.mp hx with hx1 | hx2
              · exact ellipse_fit_loop_centerz mf _ _ _ _ _ _ (by assumption)
                  x hx1
              · exact ih _ _ _ _ _ (by assumption) x hx2
    · exact absurd h (by simp)

/-- Claim C10: every Arc record returned by a successful `ellipse_to_arcs`
call has a center whose z-coordinate is exactly 0, for every input ellipse —
including ellipses whose own center has nonzero z (the z offsets the sampled
points but is dropped from every emitted arc center). -/
theorem C10_theorem (mf : MathFuncs) (given_ellipsis : TGeometryList)
    (n : ℤ) (sl : ℚ) (u : String) (arcs : TGeometryList)
    (h : ellipse_to_arcs mf given_ellipsis n sl u = .ok arcs) :
    ∀ x ∈ arcs, (x.2.getD 0 []).getD 2 0 = 0 :=
  ellipse_go_centerz mf u given_ellipsis n sl 0 none arcs h

/-- Concrete math functions for a successful ellipse run: values are chosen so
that each sampled triple is non-collinear and all arithmetic stays small. -/
def mfw : MathFuncs where
  cosd := fun t =>
    if t = 0 then 1 else if t = 90 then 2 else if t = 180 then 0
    else if t = 270 then 5 else 9
  sind := fun t =>
    if t = 0 then 0 else if t = 90 then 3 else if t = 180 then 2
    else if t = 270 then 7 else 9
  sqrt := fun _ => 1
  atan2d := fun y x => y + x
  pi := 3

/-- Evaluation of `List.range 4`, shared by concrete-run proofs. -/
theorem range_four : List.range 4 = [0, 1, 2, 3] := by decide

/-- Evaluation of `List.range 2`, shared by concrete-run proofs. -/
theorem range_two : List.range 2 = [0, 1] := by decide

/-- Concrete successful run of `ellipse_to_arcs` on an ellipse centered at
z = 7 with num_segments = 2, under the `mfw` math functions. -/
theorem mfw_run :
    ellipse_to_arcs mfw [("ELLIPSE:0", [[0, 0, 7], [1, 0, 0], [1]])] 2 0 "um" =
      .ok [("ARC:0", [[3/2, 3/2, 0], [1, -2, -1]]),
           ("ARC:1", [[25/6, 17/6, 0], [1, -5, -6]])] := by
  simp [ellipse_to_arcs, ellipse_to_arcs_go, ellipse_points_loop,
    ellipse_fit_loop, mfw, UNIT_TABLE, range_four, range_two,
    conversion_factor_of, CONVERSION_FACTORS]
  norm_num
  exact ⟨by decide, by decide⟩

/-- Witness for C10 at the concrete run: the first emitted arc of an ellipse
centered at z = 7 has center z = 0. -/
theorem C10_witness :
    ((("ARC:0", [[3/2, 3/2, 0], [1, -2, -1]]) : TGeometryItem).2.getD 0
      []).getD 2 0 = 0 :=
  C10_theorem mfw [("ELLIPSE:0", [[0, 0, 7], [1, 0, 0], [1]])] 2 0 "um"
    [("ARC:0", [[3/2, 3/2, 0], [1, -2, -1]]),
     ("ARC:1", [[25/6, 17/6, 0], [1, -5, -6]])] mfw_run
    ("ARC:0", [[3/2, 3/2, 0], [1, -2, -1]]) (by simp)

/-! ## Claim C6 -/

/-- Evaluation of `List.range 1`, shared by concrete-run proofs. -/
theorem range_one : List.range 1 = [0] := by decide

/-- Claim C6's divergence: with num_segments = 1 the single triple's third
point is the SAME list entry as its first (index (2*0+2) % 2 = 0), so the
fit's denominator 2*p1y - 2*p3y is exactly zero — in Python float arithmetic
too, since it is y - y on one value. The guarded circumcenter fit raises and
only logs ZeroDivisionError; the following line then reads the never-assigned
`cx`, and the whole call aborts with an uncaught NameError. No arc is
skipped-and-continued as the claim requires. This holds for ANY math
functions whose polar-radius square root at the two sampled angles is nonzero
(real math satisfies this: sqrt(cos^2+sin^2) = 1). -/
theorem C6_theorem (mf : MathFuncs)
    (hs0 : mf.sqrt (mf.cosd 0 ^ 2 + mf.sind 0 ^ 2) ≠ 0)
    (hs180 : mf.sqrt (mf.cosd 180 ^ 2 + mf.sind 180 ^ 2) ≠ 0) :
    ellipse_to_arcs mf [("ELLIPSE:0", [[0, 0, 0], [1, 0, 0], [1]])] 1 0 "um" =
      .error .nameError := by
  norm_num [ellipse_to_arcs, ellipse_to_arcs_go, ellipse_points_loop,
    ellipse_fit_loop, UNIT_TABLE, range_one, range_two, hs0, hs180]

/-- Concrete math functions agreeing with real cosine/sine at the four
sampled angles, for the C6 witness. -/
def mfc : MathFuncs where
  cosd := fun t =>
    if t = 0 then 1 else if t = 90 then 0 else if t = 180 then -1
    else if t = 270 then 0 else 0
  sind := fun t =>
    if t = 0 then 0 else if t = 90 then 1 else if t = 180 then 0
    else if t = 270 then -1 else 0
  sqrt := fun q => if 0 < q then 1 else 0
  atan2d := fun _ _ => 0
  pi := 3

/-- Witness for C6 at the concrete math functions `mfc` (which agree with
real cosine/sine at the sampled angles): the num_segments = 1 call crashes
with a NameError instead of skipping the degenerate arc. -/
theorem C6_witness :
    ellipse_to_arcs mfc [("ELLIPSE:0", [[0, 0, 0], [1, 0, 0], [1]])] 1 0 "um" =
      .error .nameError :=
  C6_theorem mfc (by norm_num [mfc]) (by norm_num [mfc])

/-! ## Claim C8 -/

/-- Whether the fixed adjacency chain ELLIPSE → ARC → LINE → POINT (section
4.2/4.3 of the spec) admits a down-conversion path from `s` to `t` (a trivial
path when the kinds match). This is the spec-side reachability predicate the
claim quantifies over. -/
def has_path (s t : String) : Bool :=
  s == t || (s == "LINE" && t == "POINT") ||
    (s == "ARC" && (t == "LINE" || t == "POINT")) ||
    (s == "ELLIPSE" && (t == "ARC" || t == "LINE" || t == "POINT"))

/-- Claim C8 as stated is false: with source POINT and target LINE (no
adjacency path), and likewise for an unrecognized source kind, `convert_to`
returns Python None silently — it reports no error to the caller. -/
theorem C8_counterexample :
    (convert_to mf0 "POINT" "LINE" [("POINT:0", [[0, 0, 0]])] 0 0 "um" =
      .ok none) ∧
    (convert_to mf0 "SPLINE" "POINT" [] 0 0 "um" = .ok none) := by
  constructor
  · simp [convert_to]
  · simp [convert_to]

/-- No-result propagation from a POINT source: for any target other than
POINT, `convert_to` falls off the dispatch chain and returns None. -/
theorem conv_from_point (mf : MathFuncs) (g : TGeometryList) (n : ℤ) (sl : ℚ)
    (u t : String) (r : Option TGeometryList) (htp : t ≠ "POINT") :
    convert_to mf "POINT" t g n sl u = .ok r → r = none := by
  intro h
  rw [convert_to.eq_def] at h
  rw [if_neg (Ne.symm htp), if_neg (by decide), if_neg (by decide),
    if_neg (by decide)] at h
  injection h with h1
  exact h1.symm

/-- No-result propagation from a LINE source: for any target that is neither
LINE nor POINT, a returning `convert_to` call yields None. -/
theorem conv_from_line (mf : MathFuncs) (g : TGeometryList) (n : ℤ) (sl : ℚ)
    (u t : String) (r : Option TGeometryList) (htl : t ≠ "LINE")
    (htp : t ≠ "POINT") :
    convert_to mf "LINE" t g n sl u = .ok r → r = none := by
  intro h
  rw [convert_to.eq_def] at h
  rw [if_neg (Ne.symm htl), if_pos rfl] at h
  split at h
  · exact absurd h (by simp)
  · exact conv_from_point mf _ 0 0 "um" t r htp h

/-- No-result propagation from an ARC source. -/
theorem conv_from_arc (mf : MathFuncs) (g : TGeometryList) (n : ℤ) (sl : ℚ)
    (u t : String) (r : Option TGeometryList) (hta : t ≠ "ARC")
    (htl : t ≠ "LINE") (htp : t ≠ "POINT") :
    convert_to mf "ARC" t g n sl u = .ok r → r = none := by
  intro h
  rw [convert_to.eq_def] at h
  rw [if_neg (Ne.symm hta), if_neg (by decide), if_pos rfl] at h
  split at h
  · exact absurd h (by simp)
  · exact conv_from_line mf _ 0 0 "um" t r htl htp h

/-- No-result propagation from an ELLIPSE source. -/
theorem conv_from_ellipse (mf : MathFuncs) (g : TGeometryList) (n : ℤ)
    (sl : ℚ) (u t : String) (r : Option TGeometryList) (hte : t ≠ "ELLIPSE")
    (hta : t ≠ "ARC") (htl : t ≠ "LINE") (htp : t ≠ "POINT") :
    convert_to mf "ELLIPSE" t g n sl u = .ok r → r = none := by
  intro h
  rw [convert_to.eq_def] at h
  rw [if_neg (Ne.symm hte), if_neg (by decide), if_neg (by decide),
    if_pos rfl] at h
  split at h
  · exact absurd h (by simp)
  · exact conv_from_arc mf _ 0 0 "um" t r hta htl htp h

/-- Claim C8 amended: when no down-conversion adjacency path leads from the
source kind to the target kind (including unrecognized source kinds),
`convert_to` does not report an error for that reason; whenever such a call
returns at all, it returns no result (Python None). Callers must detect the
missing result themselves. -/
theorem C8_amended (mf : MathFuncs) (s t : String) (g : TGeometryList)
    (n : ℤ) (sl : ℚ) (u : String) (r : Option TGeometryList)
    (hp : has_path s t = false) :
    convert_to mf s t g n sl u = .ok r → r = none := by
  intro h
  have hst : s ≠ t := by
    intro he
    subst he
    simp [has_path] at hp
  by_cases hsl : s = "LINE"
  · subst hsl
    have htp : t ≠ "POINT" := fun he => by
      subst he; exact absurd hp (by decide)
    rw [convert_to.eq_def] at h
    rw [if_neg hst, if_pos rfl] at h
    split at h
    · exact absurd h (by simp)
    · exact conv_from_point mf _ 0 0 "um" t r htp h
  · by_cases hsa : s = "ARC"
    · subst hsa
      have htl : t ≠ "LINE" := fun he => by
        subst he; exact absurd hp (by decide)
      have htp : t ≠ "POINT" := fun he => by
        subst he; exact absurd hp (by decide)
      rw [convert_to.eq_def] at h
      rw [if_neg hst, if_neg (by decide), if_pos rfl] at h
      split at h
      · exact absurd h (by simp)
      · exact conv_from_line mf _ 0 0 "um" t r htl htp h
    · by_cases hse : s = "ELLIPSE"
      · subst hse
        have hta : t ≠ "ARC" := fun he => by
          subst he; exact absurd hp (by decide)
        have htl : t ≠ "LINE" := fun he => by
          subst he; exact absurd hp (by decide)
        have htp : t ≠ "POINT" := fun he => by
          subst he; exact absurd hp (by decide)
        rw [convert_to.eq_def] at h
        rw [if_neg hst, if_neg (by decide), if_neg (by decide),
          if_pos rfl] at h
        split at h
        · exact absurd h (by simp)
        · exact conv_from_arc mf _ 0 0 "um" t r hta htl htp h
      · rw [convert_to.eq_def] at h
        rw [if_neg hst, if_neg hsl, if_neg hsa, if_neg hse] at h
        injection h with h1
        exact h1.symm

/-- Witness for C8's amended statement: the POINT → LINE call from the
counterexample returns None. -/
theorem C8_witness : (none : Option TGeometryList) = none :=
  C8_amended mf0 "POINT" "LINE" [("POINT:0", [[0, 0, 0]])] 0 0 "um" none
    (by decide) (by simp [convert_to])
